import Mathlib

/-!
Shallow embedding of the smart-mindv2 swarm-agent core, translated from the
TypeScript source:

* `src/agents/credits.ts` — credit/survival economy (`computeTier`,
  `initCredits`, `earnCredits`, `spendCredits`);
* `src/agents/runner.ts` — the per-agent tick loop: gossip ingestion
  (`pullFromPeers`, the `POST /pheromone` handler), decay and pruning,
  density recomputation (`updateDensity`) and the local phase-transition
  detector with its cycle-reset/lockout protocol;
* the self-modification module (`modifyProfile`) with its immutable
  4-line profile header.

JavaScript numbers on these code paths hold exact decimal values and the
arithmetic stays well inside the double-precision range, so they are
embedded as rationals (`ℚ`); `Date.now()` timestamps are integers (`ℤ`).
-/

namespace SmartMind

/-- Survival tiers, from `credits.ts`. -/
inductive SurvivalTier where
  | normal
  | low_compute
  | critical
  | dead
  deriving DecidableEq, Repr

/-- `CreditState`, from `credits.ts`. -/
structure CreditState where
  balance : ℚ
  earned : ℚ
  spent : ℚ
  tier : SurvivalTier
  distressEmitted : Bool
  deriving DecidableEq, Repr

/-- `TIER_THRESHOLDS` from `credits.ts`: normal 50, low_compute 10, critical 1. -/
def tierThresholdNormal : ℚ := 50

def tierThresholdLowCompute : ℚ := 10

def tierThresholdCritical : ℚ := 1

/-- `TOKEN_CREDIT_RATE = 1000` tokens per credit. -/
def TOKEN_CREDIT_RATE : ℚ := 1000

/-- The keys of the `EARN` table in `credits.ts`. -/
inductive EarnReason where
  | high_confidence_finding
  | medium_confidence_finding
  | low_confidence_finding
  | correlation_discovery
  | collective_contribution
  | self_modification
  deriving DecidableEq, Repr

/-- The `EARN` reward table from `credits.ts`. -/
def EARN : EarnReason → ℚ
  | .high_confidence_finding => 5
  | .medium_confidence_finding => 2
  | .low_confidence_finding => 0
  | .correlation_discovery => 8
  | .collective_contribution => 10
  | .self_modification => 3

/-- `computeTier` from `credits.ts`. -/
def computeTier (balance : ℚ) : SurvivalTier :=
  if balance ≥ tierThresholdNormal then .normal
  else if balance ≥ tierThresholdLowCompute then .low_compute
  else if balance ≥ tierThresholdCritical then .critical
  else .dead

/-- `initCredits` from `credits.ts`. -/
def initCredits (startingBalance : ℚ := 100) : CreditState :=
  { balance := startingBalance
    earned := 0
    spent := 0
    tier := computeTier startingBalance
    distressEmitted := false }

/-- `earnCredits` from `credits.ts`.  The `reason` argument is accepted but
not read by the body, exactly as in the source. -/
def earnCredits (state : CreditState) (amount : ℚ) (_reason : EarnReason) : CreditState :=
  let newBalance := state.balance + amount
  let newTier := computeTier newBalance
  { state with
    balance := newBalance
    earned := state.earned + amount
    tier := newTier
    distressEmitted := state.distressEmitted && decide (newTier = .dead) }

/-- `spendCredits` from `credits.ts`: the cost is `tokensUsed / 1000`, the
balance is floored at 0, the lifetime `spent` counter gets the full cost. -/
def spendCredits (state : CreditState) (tokensUsed : ℚ) : CreditState :=
  let cost := tokensUsed / TOKEN_CREDIT_RATE
  let newBalance := max 0 (state.balance - cost)
  { state with
    balance := newBalance
    spent := state.spent + cost
    tier := computeTier newBalance }

/-- Rank of a tier in the order dead < critical < low_compute < normal,
used to state tier monotonicity. -/
def tierRank : SurvivalTier → ℕ
  | .dead => 0
  | .critical => 1
  | .low_compute => 2
  | .normal => 3

/-! ## Pheromones, channel and the runner tick loop (`runner.ts`) -/

/-- A pheromone record, with the fields `runner.ts` reads and writes
(`p.id`, `p.agentId`, `p.domain`, `p.content`, `p.confidence`,
`p.strength`, `p.timestamp`). -/
structure Pheromone where
  id : String
  agentId : String
  domain : String
  content : String
  confidence : ℚ
  strength : ℚ
  timestamp : ℤ
  deriving DecidableEq, Repr

/-- The local `PheromoneChannel` value built in `runner.ts`. -/
structure PheromoneChannel where
  pheromones : List Pheromone
  density : ℚ
  criticalThreshold : ℚ
  phaseTransitionOccurred : Bool
  transitionStep : Option ℕ
  deriving DecidableEq, Repr

/-- The synchronization-bookkeeping fields of `agent.state` that the
runner's transition block resets (`synchronized`, `syncedWith`,
`absorbed`, `energy`).  The JS `Set` of absorbed ids is embedded as its
membership list. -/
structure AgentSyncState where
  synchronized : Bool
  syncedWith : List String
  absorbed : List String
  energy : ℚ
  deriving DecidableEq, Repr

/-- The module-level mutable state of `runner.ts` that the tick loop
touches: `step`, `cycleResetAt`, `noTransitionBeforeStep`, the channel
and the agent bookkeeping. -/
structure RunnerState where
  step : ℕ
  cycleResetAt : ℤ
  noTransitionBeforeStep : ℕ
  channel : PheromoneChannel
  agent : AgentSyncState
  deriving DecidableEq, Repr

/-- `channel.pheromones.find(e => e.id === p.id)` truthiness. -/
def hasId (ps : List Pheromone) (i : String) : Bool :=
  ps.any fun e => e.id == i

/-- One insertion attempt of the pull path (`pullFromPeers` in
`runner.ts`): insert iff the id is unseen and the pheromone was created
strictly after the last cycle reset. -/
def pullInsert (ps : List Pheromone) (cycleResetAt : ℤ) (p : Pheromone) : List Pheromone :=
  if hasId ps p.id = false ∧ cycleResetAt < p.timestamp then ps ++ [p] else ps

/-- `pullFromPeers` from `runner.ts`, applied to the list of fulfilled
peer responses: every returned pheromone goes through `pullInsert`
against the store as accumulated so far. -/
def pullFromPeers (ps : List Pheromone) (cycleResetAt : ℤ)
    (results : List (List Pheromone)) : List Pheromone :=
  results.foldl (fun acc r => r.foldl (fun acc2 p => pullInsert acc2 cycleResetAt p) acc) ps

/-- The `POST /pheromone` handler body from `runner.ts`: additionally
requires a truthy `p.id`, then applies the same dedup + staleness
filter as the pull path. -/
def postPheromone (ps : List Pheromone) (cycleResetAt : ℤ) (p : Pheromone) : List Pheromone :=
  if p.id ≠ "" ∧ hasId ps p.id = false ∧ cycleResetAt < p.timestamp then ps ++ [p] else ps

/-- The per-tick decay and pruning from `run()` in `runner.ts`:
`p.strength *= (1 - PHEROMONE_DECAY)` for every stored pheromone, then
keep only those with `strength > 0.05`. -/
def decayAndPrune (decayRate : ℚ) (ps : List Pheromone) : List Pheromone :=
  (ps.map fun p => { p with strength := p.strength * (1 - decayRate) }).filter
    fun p => decide (p.strength > 0.05)

/-- `updateDensity` from `runner.ts`:
`active = pheromones with strength > 0.1`,
`avgStr = active.length ? sum/length : 0`,
`density = min(1, (active.length / 24) * avgStr * 1.5)`. -/
def updateDensity (ps : List Pheromone) : ℚ :=
  let active := ps.filter fun p => decide (p.strength > 0.1)
  let avgStr := if active.length = 0 then 0
    else (active.map Pheromone.strength).sum / (active.length : ℚ)
  min 1 (((active.length : ℚ) / 24) * avgStr * 1.5)

/-- Modelled from the spec (§4.2) in its own words: `active = signals
with strength > 0.1`, `avgStrength = mean(strength over active)` (0 if
none active), `density = min(1, (|active| / N) * avgStrength * scale)`
with `N = 24`, `scale = 1.5`.  Compared against `updateDensity`. -/
def densitySpec (ps : List Pheromone) : ℚ :=
  let active := ps.filter fun p => decide (p.strength > 0.1)
  let avgStrength := if active = [] then 0
    else (active.map Pheromone.strength).sum / (active.length : ℚ)
  min 1 (((active.length : ℚ) / 24) * avgStrength * 1.5)

/-- `synced` at the transition check: count of stored pheromones with
`strength > 0.4`. -/
def syncedCount (ps : List Pheromone) : ℕ :=
  (ps.filter fun p => decide (p.strength > 0.4)).length

/-- The phase-transition guard from `run()` in `runner.ts`:
`!channel.phaseTransitionOccurred && step >= noTransitionBeforeStep &&
channel.density >= channel.criticalThreshold && synced >= 3`. -/
def transitionCheck (st : RunnerState) : Bool :=
  !st.channel.phaseTransitionOccurred
    && decide (st.noTransitionBeforeStep ≤ st.step)
    && decide (st.channel.criticalThreshold ≤ st.channel.density)
    && decide (3 ≤ syncedCount st.channel.pheromones)

/-- The per-tick external inputs of one iteration of `run()`: the
fulfilled peer pull responses, whether a pending 5-second
flag-clearing timeout fires before this tick's check, `Date.now()` at
the reset point, the `Math.random()` draw used for the post-reset
energy, and the pheromone emitted by `agent.step` (if any). -/
structure TickInput where
  pulled : List (List Pheromone)
  clearFlag : Bool
  now : ℤ
  rand : ℚ
  emitted : Option Pheromone
  deriving Repr

/-- The start of one `run()` iteration, up to (not including) the
transition check: apply a pending flag-clear timeout if it fires,
`step++`, pull gossip, decay and prune, recompute density. -/
def tickPreCheck (decayRate : ℚ) (st : RunnerState) (inp : TickInput) : RunnerState :=
  let ch0 := if inp.clearFlag
    then { st.channel with phaseTransitionOccurred := false, transitionStep := none }
    else st.channel
  let ps := decayAndPrune decayRate (pullFromPeers ch0.pheromones st.cycleResetAt inp.pulled)
  { st with
    step := st.step + 1
    channel := { ch0 with pheromones := ps, density := updateDensity ps } }

/-- The transition block of `run()`: when the guard holds, set
`cycleResetAt = Date.now()`, `noTransitionBeforeStep = step + 12`,
clear the store, zero the density, reset the agent's synchronization
bookkeeping (`synchronized = false`, `syncedWith = []`,
`absorbed = new Set()`, `energy = 0.3 + Math.random() * 0.2`) and set
the observability flag with `transitionStep = step`. -/
def applyTransition (st : RunnerState) (inp : TickInput) : RunnerState :=
  if transitionCheck st then
    { st with
      cycleResetAt := inp.now
      noTransitionBeforeStep := st.step + 12
      channel := { st.channel with
        pheromones := []
        density := 0
        phaseTransitionOccurred := true
        transitionStep := some st.step }
      agent := { st.agent with
        synchronized := false
        syncedWith := []
        absorbed := []
        energy := 0.3 + inp.rand * 0.2 } }
  else st

/-- The emit step at the end of one `run()` iteration: if `agent.step`
returned a pheromone, push it into the local channel. -/
def tickEmit (st : RunnerState) (inp : TickInput) : RunnerState :=
  match inp.emitted with
  | none => st
  | some p => { st with channel := { st.channel with pheromones := st.channel.pheromones ++ [p] } }

/-- One full iteration of the `run()` loop. -/
def tick (decayRate : ℚ) (st : RunnerState) (inp : TickInput) : RunnerState :=
  tickEmit (applyTransition (tickPreCheck decayRate st inp) inp) inp

/-- Iterate the tick loop over a sequence of per-tick inputs. -/
def runTicks (decayRate : ℚ) (st : RunnerState) (inps : List TickInput) : RunnerState :=
  inps.foldl (tick decayRate) st

/-- A phase transition is declared during a tick iff the guard holds at
the check point of that tick. -/
def declares (decayRate : ℚ) (st : RunnerState) (inp : TickInput) : Bool :=
  transitionCheck (tickPreCheck decayRate st inp)

/-! ## Self-modification (`modifyProfile` in the self-modification module) -/

/-- `IMMUTABLE_HEADER_LINES = 4`: the first 4 lines of a profile are the
identity header and are never overwritten. -/
def IMMUTABLE_HEADER_LINES : ℕ := 4

/-- `modifyProfile` from the self-modification module, at the level of
newline-separated line lists (`current.split("\n")` is `current`,
`join("\n")` followed by `+ "\n" +` is list append).  The rate limiter
verdict and the content validator are passed in as parameters: the
source's `checkRateLimit` reads a wall-clock timestamp table and
`validateContent` runs a byte-size check plus a fixed set of JS regex
patterns, and the header-preservation claim holds for every verdict
they can return.  On success the function returns the file content
written by `fs.writeFileSync`: the first `IMMUTABLE_HEADER_LINES` lines
of the existing profile followed by the caller's new body. -/
def modifyProfile (rateOk : Bool) (validate : List String → Bool)
    (current : List String) (newProfileBody : List String) : Option (List String) :=
  if !rateOk then none
  else if !validate newProfileBody then none
  else
    let immutableHeader := current.take IMMUTABLE_HEADER_LINES
    let newContent := immutableHeader ++ newProfileBody
    if !validate newContent then none
    else some newContent

/-! ## Concrete fixtures used by witnesses and counterexamples -/

/-- A concrete pheromone with the given id, strength and timestamp. -/
def mkP (i : String) (s : ℚ) (t : ℤ) : Pheromone :=
  { id := i, agentId := "origin", domain := "astro", content := "finding"
    confidence := 1, strength := s, timestamp := t }

/-- A concrete runner state holding four fresh strong pheromones, a low
critical threshold, no flag set and no lockout pending. -/
def st0 : RunnerState :=
  { step := 0
    cycleResetAt := 0
    noTransitionBeforeStep := 0
    channel :=
      { pheromones := [mkP "a" (9/10) 1, mkP "b" (9/10) 1, mkP "c" (9/10) 1, mkP "d" (9/10) 1]
        density := 0
        criticalThreshold := 1/10
        phaseTransitionOccurred := false
        transitionStep := none }
    agent := { synchronized := true, syncedWith := ["peer1"], absorbed := ["x"], energy := 1 } }

/-- A quiet tick input: nothing pulled, no pending flag clear, wall
clock 5, `Math.random()` draw `1/2`, nothing emitted. -/
def inp0 : TickInput :=
  { pulled := [], clearFlag := false, now := 5, rand := 1/2, emitted := none }

/-- A concrete runner state sitting right at the transition-check point:
density already recomputed above threshold, three fully synced
pheromones, no flag, no lockout. -/
def st1 : RunnerState :=
  { step := 5
    cycleResetAt := 0
    noTransitionBeforeStep := 0
    channel :=
      { pheromones := [mkP "a" 1 1, mkP "b" 1 1, mkP "c" 1 1]
        density := 1
        criticalThreshold := 1/2
        phaseTransitionOccurred := false
        transitionStep := none }
    agent := { synchronized := true, syncedWith := ["peer1"], absorbed := ["x"], energy := 1 } }

/-! ## Theorems -/

/-- A single pull-path insertion only ever adds a pheromone created
strictly after the cycle reset. -/
lemma mem_pullInsert {ps : List Pheromone} {T : ℤ} {p q : Pheromone}
    (hq : q ∈ pullInsert ps T p) : q ∈ ps ∨ T < q.timestamp := by
  unfold pullInsert at hq
  split_ifs at hq with hc
  · rcases List.mem_append.1 hq with h | h
    · exact .inl h
    · simp only [List.mem_singleton] at h
      subst h
      exact .inr hc.2
  · exact .inl hq

/-- Folding pull-path insertions over one peer response preserves the
staleness guarantee. -/
lemma mem_foldl_pullInsert {T : ℤ} :
    ∀ (r : List Pheromone) (acc : List Pheromone) (q : Pheromone),
      q ∈ r.foldl (fun a p => pullInsert a T p) acc → q ∈ acc ∨ T < q.timestamp := by
  intro r
  induction r with
  | nil => intro acc q h; exact .inl h
  | cons p rest ih =>
    intro acc q h
    rcases ih (pullInsert acc T p) q h with h' | h'
    · exact mem_pullInsert h'
    · exact .inr h'

/-- C8: `computeTier` is the non-decreasing step function with exact
boundaries {1, 10, 50}: it returns `normal` iff `balance ≥ 50`,
`low_compute` iff `10 ≤ balance < 50`, `critical` iff
`1 ≤ balance < 10`, `dead` otherwise; in particular
`computeTier 49.9 = low_compute`, `computeTier 50 = normal`,
`computeTier 0 = dead`, and a negative pre-floor balance behaves as
`computeTier 0`. -/
theorem computeTier_step_function :
    (∀ b : ℚ,
      (computeTier b = .normal ↔ 50 ≤ b) ∧
      (computeTier b = .low_compute ↔ 10 ≤ b ∧ b < 50) ∧
      (computeTier b = .critical ↔ 1 ≤ b ∧ b < 10) ∧
      (computeTier b = .dead ↔ b < 1)) ∧
    (∀ b₁ b₂ : ℚ, b₁ ≤ b₂ → tierRank (computeTier b₁) ≤ tierRank (computeTier b₂)) ∧
    computeTier (499/10) = .low_compute ∧
    computeTier 50 = .normal ∧
    computeTier 0 = .dead ∧
    computeTier (-5) = computeTier 0 := by
  refine ⟨?_, ?_, ?_, ?_, ?_, ?_⟩
  · intro b
    unfold computeTier tierThresholdNormal tierThresholdLowCompute tierThresholdCritical
    split_ifs with h1 h2 h3 <;> refine ⟨?_, ?_, ?_, ?_⟩ <;> simp_all <;> intros <;> linarith
  · intro b₁ b₂ h
    unfold computeTier tierThresholdNormal tierThresholdLowCompute tierThresholdCritical
    split_ifs <;> simp [tierRank] <;> linarith
  · norm_num [computeTier, tierThresholdNormal, tierThresholdLowCompute, tierThresholdCritical]
  · norm_num [computeTier, tierThresholdNormal, tierThresholdLowCompute, tierThresholdCritical]
  · norm_num [computeTier, tierThresholdNormal, tierThresholdLowCompute, tierThresholdCritical]
  · norm_num [computeTier, tierThresholdNormal, tierThresholdLowCompute, tierThresholdCritical]

/-- Witness for C8: the monotonicity part applied at balances 3 ≤ 7. -/
theorem computeTier_step_function_witness :
    (3 : ℚ) ≤ 7 ∧ tierRank (computeTier 3) ≤ tierRank (computeTier 7) :=
  ⟨by norm_num, computeTier_step_function.2.1 3 7 (by norm_num)⟩

/-- C9: `spendCredits` floors the new balance at 0 but adds the full
cost `tokensUsed / 1000` to the lifetime `spent` counter even when the
floor truncates the deduction, so after a floored spend the lifetime
spent total can exceed the starting balance plus lifetime earned
(concretely: spending 200000 tokens from a fresh balance-100 state
leaves balance 0, spent 200 > 100 + 0 earned). -/
theorem spendCredits_floors_balance_but_not_spent :
    (∀ (s : CreditState) (t : ℚ), 0 ≤ t →
      (spendCredits s t).balance = max 0 (s.balance - t / 1000) ∧
      (spendCredits s t).spent = s.spent + t / 1000) ∧
    (spendCredits (initCredits 100) 200000).balance = 0 ∧
    (spendCredits (initCredits 100) 200000).spent = 200 ∧
    (spendCredits (initCredits 100) 200000).spent >
      (initCredits 100).balance + (spendCredits (initCredits 100) 200000).earned := by
  refine ⟨fun s t _ => ⟨rfl, rfl⟩, ?_, ?_, ?_⟩ <;>
    norm_num [spendCredits, initCredits, computeTier, TOKEN_CREDIT_RATE,
      tierThresholdNormal, tierThresholdLowCompute, tierThresholdCritical]

/-- Witness for C9: the general part applied to the fresh state and
1000 tokens. -/
theorem spendCredits_floors_balance_but_not_spent_witness :
    (0 : ℚ) ≤ 1000 ∧
    ((spendCredits (initCredits 100) 1000).balance
        = max 0 ((initCredits 100).balance - 1000 / 1000) ∧
      (spendCredits (initCredits 100) 1000).spent = (initCredits 100).spent + 1000 / 1000) :=
  ⟨by norm_num,
    spendCredits_floors_balance_but_not_spent.1 (initCredits 100) 1000 (by norm_num)⟩

/-- C1 (counterexample): in the spec's Scenario C the balance after
earning 10 on top of 100 and then spending 60000 tokens at 1000
tokens/credit is 110 − 60 = 50, and `computeTier 50` is `normal` — not
`low_compute` or any lower tier as the claim states. -/
theorem scenarioC_tier_is_not_reduced :
    (spendCredits (earnCredits (initCredits 100) 10 .collective_contribution) 60000).tier
        = .normal ∧
    (spendCredits (earnCredits (initCredits 100) 10 .collective_contribution) 60000).tier
        ≠ .low_compute ∧
    (spendCredits (earnCredits (initCredits 100) 10 .collective_contribution) 60000).tier
        ≠ .critical ∧
    (spendCredits (earnCredits (initCredits 100) 10 .collective_contribution) 60000).tier
        ≠ .dead := by
  norm_num [spendCredits, earnCredits, initCredits, computeTier, TOKEN_CREDIT_RATE,
    tierThresholdNormal, tierThresholdLowCompute, tierThresholdCritical]
  decide

/-- C1 (amended): starting from balance 100, `earnCredits` with amount
10 (the collective-contribution reward) yields balance 110 with tier
`normal`; then `spendCredits` with 60000 tokens at 1000 tokens/credit
deducts 60, leaving balance 50 (the floor at 0 is not engaged), and the
recomputed tier is `normal`, because 50 sits exactly on the `normal`
threshold of the boundaries {1, 10, 50}. -/
theorem scenarioC_run :
    (earnCredits (initCredits 100) 10 .collective_contribution).balance = 110 ∧
    (earnCredits (initCredits 100) 10 .collective_contribution).tier = .normal ∧
    (spendCredits (earnCredits (initCredits 100) 10 .collective_contribution) 60000).balance
        = 50 ∧
    (spendCredits (earnCredits (initCredits 100) 10 .collective_contribution) 60000).tier
        = .normal := by
  norm_num [spendCredits, earnCredits, initCredits, computeTier, TOKEN_CREDIT_RATE,
    tierThresholdNormal, tierThresholdLowCompute, tierThresholdCritical]

/-- C3: with `cycleResetAt = T`, an inbound gossiped pheromone whose
creation timestamp is ≤ T is never inserted — the store is unchanged
on both the pull path and the inbound `POST /pheromone` path, so a
pheromone stamped exactly `T` is rejected (exclusive boundary); and no
pheromone with timestamp ≤ T ever enters the store through a full
multi-peer pull. -/
theorem staleness_boundary_exclusive :
    (∀ (ps : List Pheromone) (T : ℤ) (p : Pheromone), p.timestamp ≤ T →
      pullInsert ps T p = ps ∧ postPheromone ps T p = ps) ∧
    (∀ (ps : List Pheromone) (T : ℤ) (results : List (List Pheromone)) (q : Pheromone),
      q ∈ pullFromPeers ps T results → q ∈ ps ∨ T < q.timestamp) := by
  constructor
  · intro ps T p h
    refine ⟨?_, ?_⟩
    · rw [pullInsert, if_neg fun hc => absurd hc.2 (not_lt.mpr h)]
    · rw [postPheromone, if_neg fun hc => absurd hc.2.2 (not_lt.mpr h)]
  · intro ps T results q hq
    unfold pullFromPeers at hq
    induction results generalizing ps with
    | nil => exact .inl hq
    | cons r rest ih =>
      simp only [List.foldl_cons] at hq
      rcases ih _ hq with h' | h'
      · exact mem_foldl_pullInsert r ps q h'
      · exact .inr h'

/-- Witness for C3: a previously unseen pheromone stamped exactly at
the reset instant 0 is rejected by both paths on the empty store. -/
theorem staleness_boundary_exclusive_witness :
    (mkP "stale" 1 0).timestamp ≤ 0 ∧
    pullInsert [] 0 (mkP "stale" 1 0) = [] ∧
    postPheromone [] 0 (mkP "stale" 1 0) = [] :=
  ⟨le_refl 0,
    (staleness_boundary_exclusive.1 [] 0 (mkP "stale" 1 0) (le_refl 0)).1,
    (staleness_boundary_exclusive.1 [] 0 (mkP "stale" 1 0) (le_refl 0)).2⟩

/-- C4: `updateDensity` computes exactly the spec's formula
`min(1, (|active| / 24) * avgStrength * 1.5)` over the pheromones with
strength > 0.1; the result always lies in [0, 1]; an empty store gives
density 0; six active pheromones of strength 0.5 give density
0.1875. -/
theorem updateDensity_formula_and_bounds :
    (∀ ps, updateDensity ps = densitySpec ps) ∧
    (∀ ps, 0 ≤ updateDensity ps ∧ updateDensity ps ≤ 1) ∧
    updateDensity [] = 0 ∧
    updateDensity [mkP "a" (1/2) 1, mkP "b" (1/2) 1, mkP "c" (1/2) 1,
      mkP "d" (1/2) 1, mkP "e" (1/2) 1, mkP "f" (1/2) 1] = 0.1875 := by
  refine ⟨?_, ?_, ?_, ?_⟩
  · intro ps
    unfold updateDensity densitySpec
    simp only [List.length_eq_zero]
  · intro ps
    unfold updateDensity
    refine ⟨?_, min_le_left _ _⟩
    by_cases h : (ps.filter fun p => decide (p.strength > 0.1)).length = 0
    · simp [h]
    · have hsum : 0 ≤
          ((ps.filter fun p => decide (p.strength > 0.1)).map Pheromone.strength).sum := by
        refine List.sum_nonneg ?_
        intro x hx
        rcases List.mem_map.1 hx with ⟨p, hp, rfl⟩
        have := (List.mem_filter.1 hp).2
        simp only [decide_eq_true_eq] at this
        linarith
      refine le_min (by norm_num) ?_
      have hln : (0:ℚ) < ((ps.filter fun p => decide (p.strength > 0.1)).length : ℚ) := by
        have := Nat.pos_of_ne_zero h
        exact_mod_cast this
      simp only [h, if_false]
      positivity
  · norm_num [updateDensity]
  · norm_num [updateDensity, mkP, List.filter]

/-- The pre-check phase increments the step counter. -/
lemma tickPreCheck_step (d : ℚ) (st : RunnerState) (inp : TickInput) :
    (tickPreCheck d st inp).step = st.step + 1 := rfl

/-- The pre-check phase leaves the lockout boundary unchanged. -/
lemma tickPreCheck_noTransitionBeforeStep (d : ℚ) (st : RunnerState) (inp : TickInput) :
    (tickPreCheck d st inp).noTransitionBeforeStep = st.noTransitionBeforeStep := rfl

/-- Emitting does not change the step counter. -/
lemma tickEmit_step (st : RunnerState) (inp : TickInput) :
    (tickEmit st inp).step = st.step := by
  cases h : inp.emitted <;> simp [tickEmit, h]

/-- Emitting does not change the lockout boundary. -/
lemma tickEmit_noTransitionBeforeStep (st : RunnerState) (inp : TickInput) :
    (tickEmit st inp).noTransitionBeforeStep = st.noTransitionBeforeStep := by
  cases h : inp.emitted <;> simp [tickEmit, h]

/-- The transition block does not change the step counter. -/
lemma applyTransition_step (st : RunnerState) (inp : TickInput) :
    (applyTransition st inp).step = st.step := by
  unfold applyTransition
  split <;> rfl

/-- When the guard holds, the transition block sets the lockout to the
current step plus 12. -/
lemma applyTransition_noTrans_true {st : RunnerState} (inp : TickInput)
    (h : transitionCheck st = true) :
    (applyTransition st inp).noTransitionBeforeStep = st.step + 12 := by
  simp [applyTransition, h]

/-- When the guard fails, the transition block leaves the lockout
boundary unchanged. -/
lemma applyTransition_noTrans_false {st : RunnerState} (inp : TickInput)
    (h : transitionCheck st = false) :
    (applyTransition st inp).noTransitionBeforeStep = st.noTransitionBeforeStep := by
  simp [applyTransition, h]

/-- Each full tick advances the step counter by exactly one. -/
lemma tick_step (d : ℚ) (st : RunnerState) (inp : TickInput) :
    (tick d st inp).step = st.step + 1 := by
  unfold tick
  rw [tickEmit_step, applyTransition_step, tickPreCheck_step]

/-- A declaring tick sets the lockout boundary to its own step value
(the pre-tick step plus 1) plus 12. -/
lemma tick_noTrans_declared {d : ℚ} {st : RunnerState} {inp : TickInput}
    (h : declares d st inp = true) :
    (tick d st inp).noTransitionBeforeStep = st.step + 13 := by
  unfold tick
  rw [tickEmit_noTransitionBeforeStep, applyTransition_noTrans_true _ h, tickPreCheck_step]

/-- A non-declaring tick leaves the lockout boundary unchanged. -/
lemma tick_noTrans_not_declared {d : ℚ} {st : RunnerState} {inp : TickInput}
    (h : declares d st inp = false) :
    (tick d st inp).noTransitionBeforeStep = st.noTransitionBeforeStep := by
  unfold tick
  rw [tickEmit_noTransitionBeforeStep, applyTransition_noTrans_false _ h,
    tickPreCheck_noTransitionBeforeStep]

/-- A declaration can only happen once the step counter has reached the
lockout boundary. -/
lemma declares_le {d : ℚ} {st : RunnerState} {inp : TickInput}
    (h : declares d st inp = true) : st.noTransitionBeforeStep ≤ st.step + 1 := by
  unfold declares transitionCheck at h
  simp only [Bool.and_eq_true, decide_eq_true_eq] at h
  exact h.1.1.2

/-- No declaration is possible strictly inside the lockout window. -/
lemma declares_false_of_locked {d : ℚ} {st : RunnerState} (inp : TickInput)
    (h : st.step + 1 < st.noTransitionBeforeStep) : declares d st inp = false := by
  cases hb : declares d st inp with
  | false => rfl
  | true => exact absurd (declares_le hb) (by omega)

/-- Running `n` ticks advances the step counter by `n`. -/
lemma runTicks_step (d : ℚ) :
    ∀ (l : List TickInput) (st : RunnerState),
      (runTicks d st l).step = st.step + l.length := by
  intro l
  induction l with
  | nil => intro st; rfl
  | cons inp rest ih =>
    intro st
    show (runTicks d (tick d st inp) rest).step = st.step + (rest.length + 1)
    rw [ih, tick_step]
    omega

/-- As long as the step counter stays below the lockout boundary, the
boundary itself never moves. -/
lemma runTicks_locked (d : ℚ) :
    ∀ (l : List TickInput) (st : RunnerState),
      st.step + l.length < st.noTransitionBeforeStep →
      (runTicks d st l).noTransitionBeforeStep = st.noTransitionBeforeStep := by
  intro l
  induction l with
  | nil => intro st _; rfl
  | cons inp rest ih =>
    intro st h
    have hnd : declares d st inp = false := declares_false_of_locked inp (by simp at h; omega)
    show (runTicks d (tick d st inp) rest).noTransitionBeforeStep = st.noTransitionBeforeStep
    rw [ih (tick d st inp) (by rw [tick_step, tick_noTrans_not_declared hnd]; simp at h; omega),
      tick_noTrans_not_declared hnd]

/-- C2: during a tick, a phase transition is declared iff, at the check
point (after pull, decay, prune and density recomputation), the flag is
not set, the step counter has reached the lockout boundary, density ≥
criticalThreshold, and at least 3 stored pheromones have
strength > 0.4; on declaration the store is cleared, the lockout is set
to the current tick plus 12, and the cycle-reset instant is set to the
current wall clock. -/
theorem transition_guard_iff (d : ℚ) (st : RunnerState) (inp : TickInput) :
    (declares d st inp = true ↔
      ((tickPreCheck d st inp).channel.phaseTransitionOccurred = false ∧
        (tickPreCheck d st inp).noTransitionBeforeStep ≤ (tickPreCheck d st inp).step ∧
        (tickPreCheck d st inp).channel.criticalThreshold
          ≤ (tickPreCheck d st inp).channel.density ∧
        3 ≤ syncedCount (tickPreCheck d st inp).channel.pheromones)) ∧
    (declares d st inp = true →
      (applyTransition (tickPreCheck d st inp) inp).channel.pheromones = [] ∧
      (applyTransition (tickPreCheck d st inp) inp).noTransitionBeforeStep
        = (tickPreCheck d st inp).step + 12 ∧
      (applyTransition (tickPreCheck d st inp) inp).cycleResetAt = inp.now) := by
  constructor
  · unfold declares transitionCheck
    simp [Bool.and_eq_true, decide_eq_true_eq, Bool.not_eq_true', and_assoc]
  · intro h
    unfold declares at h
    simp [applyTransition, h]

/-- Witness for C2: the spec's Scenario-B shape — four fresh pheromones
of strength 0.9, threshold 0.1, no flag, no lockout — declares, clears
the store and sets the lockout to the current tick plus 12. -/
theorem transition_guard_iff_witness :
    declares 0 st0 inp0 = true ∧
    ((applyTransition (tickPreCheck 0 st0 inp0) inp0).channel.pheromones = [] ∧
      (applyTransition (tickPreCheck 0 st0 inp0) inp0).noTransitionBeforeStep
        = (tickPreCheck 0 st0 inp0).step + 12 ∧
      (applyTransition (tickPreCheck 0 st0 inp0) inp0).cycleResetAt = inp0.now) :=
  ⟨by norm_num [declares, transitionCheck, tickPreCheck, st0, inp0, mkP, pullFromPeers,
      decayAndPrune, updateDensity, syncedCount, List.filter],
    (transition_guard_iff 0 st0 inp0).2
      (by norm_num [declares, transitionCheck, tickPreCheck, st0, inp0, mkP, pullFromPeers,
        decayAndPrune, updateDensity, syncedCount, List.filter])⟩

/-- C5: once a tick declares a transition, no tick strictly before the
declaring step plus 12 can declare again, whatever pheromones arrive,
whatever density results, in particular at the very next tick — here
stated for an arbitrary schedule: any tick separated from a declaring
tick by at most 10 intermediate ticks declares nothing. -/
theorem lockout_12 (d : ℚ) (st : RunnerState) (pre mid : List TickInput) (a b : TickInput)
    (hdec : declares d (runTicks d st pre) a = true)
    (hlen : mid.length < 11) :
    declares d (runTicks d st (pre ++ a :: mid)) b = false := by
  have h1 : runTicks d st (pre ++ a :: mid) = runTicks d (tick d (runTicks d st pre) a) mid := by
    unfold runTicks
    rw [List.foldl_append, List.foldl_cons]
  set S := runTicks d st pre with hS
  have hN : (tick d S a).noTransitionBeforeStep = S.step + 13 := tick_noTrans_declared hdec
  have hs : (tick d S a).step = S.step + 1 := tick_step d S a
  have h2 : (runTicks d (tick d S a) mid).noTransitionBeforeStep = S.step + 13 := by
    rw [runTicks_locked d mid (tick d S a) (by omega), hN]
  have h3 : (runTicks d (tick d S a) mid).step = S.step + 1 + mid.length := by
    rw [runTicks_step, hs]
  rw [h1]
  exact declares_false_of_locked b (by omega)

/-- Witness for C5: `st0` declares on its first tick, and the
immediately following tick (the spec's `t + 1` case) declares
nothing. -/
theorem lockout_12_witness :
    declares 0 (runTicks 0 st0 []) inp0 = true ∧
    ([] : List TickInput).length < 11 ∧
    declares 0 (runTicks 0 st0 ([] ++ inp0 :: [])) inp0 = false :=
  ⟨by norm_num [runTicks, declares, transitionCheck, tickPreCheck, st0, inp0, mkP,
      pullFromPeers, decayAndPrune, updateDensity, syncedCount, List.filter],
    by norm_num,
    lockout_12 0 st0 [] [] inp0 inp0
      (by norm_num [runTicks, declares, transitionCheck, tickPreCheck, st0, inp0, mkP,
        pullFromPeers, decayAndPrune, updateDensity, syncedCount, List.filter])
      (by norm_num)⟩

/-- C6: immediately after a declared transition — still inside the same
tick, before the agent step and emit — the store is empty, density is
0, the peer-sync list and absorbed set are empty, `synchronized` is
false, and the energy is `0.3 + Math.random() * 0.2`, which lies in
[0.3, 0.5) for any `Math.random()` draw in [0, 1). -/
theorem transition_reset_complete (st : RunnerState) (inp : TickInput)
    (h : transitionCheck st = true) (h0 : 0 ≤ inp.rand) (h1 : inp.rand < 1) :
    (applyTransition st inp).channel.pheromones = [] ∧
    (applyTransition st inp).channel.density = 0 ∧
    (applyTransition st inp).agent.synchronized = false ∧
    (applyTransition st inp).agent.syncedWith = [] ∧
    (applyTransition st inp).agent.absorbed = [] ∧
    (applyTransition st inp).agent.energy = 0.3 + inp.rand * 0.2 ∧
    0.3 ≤ (applyTransition st inp).agent.energy ∧
    (applyTransition st inp).agent.energy < 0.5 := by
  have e1 : (0:ℚ) ≤ inp.rand * 0.2 := mul_nonneg h0 (by norm_num)
  have e2 : inp.rand * 0.2 < 0.2 := by
    calc inp.rand * 0.2 < 1 * 0.2 := mul_lt_mul_of_pos_right h1 (by norm_num)
    _ = 0.2 := by norm_num
  unfold applyTransition
  rw [if_pos h]
  refine ⟨rfl, rfl, rfl, rfl, rfl, rfl, ?_, ?_⟩
  · show (0.3:ℚ) ≤ 0.3 + inp.rand * 0.2
    linarith
  · show (0.3:ℚ) + inp.rand * 0.2 < 0.5
    norm_num at e2 ⊢
    linarith

/-- Witness for C6: applying the transition block to a guard-satisfying
concrete state with `Math.random() = 1/2` resets everything and leaves
energy `0.3 + (1/2) * 0.2 = 0.4` inside [0.3, 0.5). -/
theorem transition_reset_complete_witness :
    transitionCheck st1 = true ∧ (0:ℚ) ≤ inp0.rand ∧ inp0.rand < 1 ∧
    ((applyTransition st1 inp0).channel.pheromones = [] ∧
      (applyTransition st1 inp0).channel.density = 0 ∧
      (applyTransition st1 inp0).agent.synchronized = false ∧
      (applyTransition st1 inp0).agent.syncedWith = [] ∧
      (applyTransition st1 inp0).agent.absorbed = [] ∧
      (applyTransition st1 inp0).agent.energy = 0.3 + inp0.rand * 0.2 ∧
      0.3 ≤ (applyTransition st1 inp0).agent.energy ∧
      (applyTransition st1 inp0).agent.energy < 0.5) :=
  ⟨by norm_num [transitionCheck, st1, mkP, syncedCount, List.filter],
    by norm_num [inp0],
    by norm_num [inp0],
    transition_reset_complete st1 inp0
      (by norm_num [transitionCheck, st1, mkP, syncedCount, List.filter])
      (by norm_num [inp0]) (by norm_num [inp0])⟩

/-- C7: on a tick with no pulled and no emitted pheromones, the next
store is exactly the decayed-and-pruned current store when no
transition is declared; every pheromone surviving the tick is some
stored pheromone with strength multiplied by `(1 - decayRate)`, which
does not exceed its old strength (for nonnegative strength and
`decayRate ∈ (0,1)`) and is strictly above the pruning floor 0.05 — so
a pheromone at or below 0.05 after decay is absent; and repeated decay
drives any nonnegative strength to 0 in the limit. -/
theorem decay_monotone_and_pruned (d : ℚ) (hd0 : 0 < d) (hd1 : d < 1) :
    (∀ (st : RunnerState) (inp : TickInput), inp.pulled = [] → inp.emitted = none →
      ((declares d st inp = false →
          (tick d st inp).channel.pheromones = decayAndPrune d st.channel.pheromones) ∧
        ∀ q ∈ (tick d st inp).channel.pheromones,
          ∃ p ∈ st.channel.pheromones,
            q.strength = p.strength * (1 - d) ∧
            (0 ≤ p.strength → q.strength ≤ p.strength) ∧
            (0.05 : ℚ) < q.strength)) ∧
    (∀ s : ℚ, 0 ≤ s →
      Filter.Tendsto (fun n : ℕ => s * (1 - d) ^ n) Filter.atTop (nhds 0)) := by
  constructor
  · intro st inp hp he
    have hmid : (tickPreCheck d st inp).channel.pheromones
        = decayAndPrune d st.channel.pheromones := by
      unfold tickPreCheck
      cases hc : inp.clearFlag <;> simp [hc, pullFromPeers, hp]
    constructor
    · intro hnd
      unfold declares at hnd
      unfold tick tickEmit
      rw [he]
      unfold applyTransition
      rw [if_neg (by rw [hnd]; exact Bool.false_ne_true)]
      exact hmid
    · intro q hq
      have hq' : q ∈ decayAndPrune d st.channel.pheromones := by
        unfold tick tickEmit at hq
        rw [he] at hq
        unfold applyTransition at hq
        by_cases hc : transitionCheck (tickPreCheck d st inp) = true
        · rw [if_pos hc] at hq
          simp at hq
        · rw [if_neg hc] at hq
          rw [hmid] at hq
          exact hq
      unfold decayAndPrune at hq'
      rcases List.mem_filter.1 hq' with ⟨hmem, hstr⟩
      rcases List.mem_map.1 hmem with ⟨p, hp2, rfl⟩
      simp only [decide_eq_true_eq] at hstr
      refine ⟨p, hp2, rfl, ?_, hstr⟩
      intro hps
      exact mul_le_of_le_one_right hps (by linarith)
  · intro s hs
    have h2 : (1 - d : ℚ) < 1 := by linarith
    have := tendsto_pow_atTop_nhds_zero_of_lt_one (by linarith : (0:ℚ) ≤ 1 - d) h2
    simpa using this.const_mul s

/-- Witness for C7: at the default decay rate 0.12, decay from strength
1 tends to 0. -/
theorem decay_monotone_and_pruned_witness :
    (0:ℚ) < 0.12 ∧ (0.12:ℚ) < 1 ∧ (0:ℚ) ≤ 1 ∧
    Filter.Tendsto (fun n : ℕ => (1:ℚ) * (1 - 0.12) ^ n) Filter.atTop (nhds 0) :=
  ⟨by norm_num, by norm_num, by norm_num,
    (decay_monotone_and_pruned 0.12 (by norm_num) (by norm_num)).2 1 (by norm_num)⟩

/-- C10: whenever `modifyProfile` succeeds on a profile with at least
`IMMUTABLE_HEADER_LINES` lines, the written file starts with exactly
the first 4 lines of the previous profile — whatever body the caller
supplied and whatever the rate limiter and content validator decided —
and everything after the header is exactly the supplied body. -/
theorem modifyProfile_preserves_header :
    ∀ (rateOk : Bool) (validate : List String → Bool)
      (current newProfileBody w : List String),
      modifyProfile rateOk validate current newProfileBody = some w →
      IMMUTABLE_HEADER_LINES ≤ current.length →
      w.take IMMUTABLE_HEADER_LINES = current.take IMMUTABLE_HEADER_LINES ∧
      w.drop IMMUTABLE_HEADER_LINES = newProfileBody := by
  intro rateOk validate current newProfileBody w hsome hlen
  unfold modifyProfile at hsome
  dsimp only at hsome
  split_ifs at hsome
  have hw : current.take IMMUTABLE_HEADER_LINES ++ newProfileBody = w :=
    Option.some.inj hsome
  have hl : (current.take IMMUTABLE_HEADER_LINES).length = IMMUTABLE_HEADER_LINES := by
    rw [List.length_take]
    omega
  subst hw
  exact ⟨List.take_left' hl, List.drop_left' hl⟩

/-- Witness for C10: overwriting a 5-line profile with body `["x"]`
writes the old 4-line header followed by the body. -/
theorem modifyProfile_preserves_header_witness :
    modifyProfile true (fun _ => true) ["h1", "h2", "h3", "h4", "old"] ["x"]
        = some ["h1", "h2", "h3", "h4", "x"] ∧
    IMMUTABLE_HEADER_LINES ≤ (["h1", "h2", "h3", "h4", "old"] : List String).length ∧
    ((["h1", "h2", "h3", "h4", "x"] : List String).take IMMUTABLE_HEADER_LINES
        = (["h1", "h2", "h3", "h4", "old"] : List String).take IMMUTABLE_HEADER_LINES ∧
      (["h1", "h2", "h3", "h4", "x"] : List String).drop IMMUTABLE_HEADER_LINES = ["x"]) :=
  ⟨rfl, by norm_num [IMMUTABLE_HEADER_LINES],
    modifyProfile_preserves_header true (fun _ => true) ["h1", "h2", "h3", "h4", "old"] ["x"]
      ["h1", "h2", "h3", "h4", "x"] rfl (by norm_num [IMMUTABLE_HEADER_LINES])⟩

end SmartMind
